import Mathlib

/-!
Shallow embedding of the ChainGuard frontend (Next.js/TypeScript) for
verification of its risk-banding, graph-building, truncation and
error-handling logic.  Numeric scores (IEEE doubles in the source) are
modelled as rationals; JavaScript strings as Lean strings, and where
character-level operations matter as lists of characters.
-/

namespace ChainGuard

/-- The record returned by `riskBand` in the source: a badge label and a
CSS colour class. -/
structure Band where
  label : String
  color : String
deriving DecidableEq, Repr

/-- `riskBand` from `src/unnamed/part_000` lines 41-46 and
`src/frontend/app/page.tsx` lines 52-57 (the two copies are textually
identical): maps a composite risk score to its band. -/
def riskBand (score : ℚ) : Band :=
  if 80 ≤ score then ⟨"Critical", "bg-red-600"⟩
  else if 60 ≤ score then ⟨"High", "bg-orange-500"⟩
  else if 40 ≤ score then ⟨"Medium", "bg-yellow-500"⟩
  else ⟨"Low", "bg-green-600"⟩

example : (riskBand 80).label = "Critical" := by decide
example : (riskBand 79).label = "High" := by decide
example : (riskBand 60).label = "High" := by decide
example : (riskBand 40).label = "Medium" := by decide
example : (riskBand 0).label = "Low" := by decide

/-- `getTruncatedId` from `src/unnamed/part_000` lines 49-54, on the
character-list model of JS strings: identifiers of length ≤ 16 pass
through; longer ones become the first 8 characters, `...`, and the last
8 characters (`substring(0, 8)` is `take 8`, `substring(length - 8)` is
`drop (length - 8)`). -/
def getTruncatedId (secureId : List Char) : List Char :=
  if secureId.length ≤ 16 then secureId
  else secureId.take 8 ++ ['.', '.', '.'] ++ secureId.drop (secureId.length - 8)

/-- `displayId` from `src/unnamed/part_001` lines 145-150, restricted to
the string case of the `typeof id === "string"` test: the condition is
written `length > 16 → truncate, else id`. -/
def displayId (id : List Char) : List Char :=
  if id.length > 16 then id.take 8 ++ ['.', '.', '.'] ++ id.drop (id.length - 8)
  else id

example : getTruncatedId "0123456789abcdef0".toList = "01234567...9abcdef0".toList := by decide
example : displayId "0123456789abcdef0".toList = "01234567...9abcdef0".toList := by decide
example : getTruncatedId "short".toList = "short".toList := by decide

/-- JavaScript nullish coalescing `a ?? b` on optional numbers: `a` when
present (even when it is 0), otherwise `b`. -/
def jsNullish (a b : Option ℚ) : Option ℚ :=
  match a with
  | some v => some v
  | none => b

/-- The anomaly value selected for display by the predict page,
`src/unnamed/part_000` line 191: `result.anomaly_score_norm ?? result.anomaly_score`. -/
def predictAnomalyShown (anomaly_score anomaly_score_norm : Option ℚ) : Option ℚ :=
  jsNullish anomaly_score_norm anomaly_score

/-- The anomaly value selected by the transaction detail page,
`src/unnamed/part_001` line 16:
`txData?.anomaly_score ?? txData?.anomaly_score_norm ?? null`. -/
def txPageAnomalyShown (anomaly_score anomaly_score_norm : Option ℚ) : Option ℚ :=
  jsNullish anomaly_score (jsNullish anomaly_score_norm none)

/-- The `TxResult` record type of `src/unnamed/part_000` lines 6-14. -/
structure TxResult where
  secure_id : String
  fraud_prob : ℚ
  gnn_fraud_prob : ℚ
  anomaly_score : Option ℚ
  anomaly_score_norm : Option ℚ
  risk_score : ℚ
  alert : String
deriving DecidableEq, Repr

/-- Outcome of the `fetch` inside `handleSubmit`: the response was ok and
its JSON body parsed to `data`; the response was not ok (`!res.ok`, which
throws "Not found"); or `fetch`/`res.json()` itself threw. -/
inductive FetchOutcome where
  | ok (data : TxResult)
  | notOk
  | fetchError
deriving DecidableEq, Repr

/-- The page state touched by `handleSubmit`: the `result`, `error` and
`loading` `useState` cells. -/
structure SubmitState where
  result : Option TxResult
  error : String
  loading : Bool
deriving DecidableEq, Repr

/-- JavaScript `String.prototype.trim` on the character-list model:
strip whitespace from both ends. -/
def jsTrim (s : List Char) : List Char :=
  ((s.dropWhile Char.isWhitespace).reverse.dropWhile Char.isWhitespace).reverse

/-- `handleSubmit` from `src/unnamed/part_000` lines 23-39 as a state
transformer: an empty (trimmed) input returns early with the state
unchanged; otherwise `result` is cleared, and on a successful response
the parsed body is stored, while `!res.ok` (which throws) and any fetch
error land in the `catch`, leaving `result` null and setting the error
message; `finally` clears `loading`. -/
def handleSubmit (txId : List Char) (outcome : FetchOutcome) (st : SubmitState) :
    SubmitState :=
  if jsTrim txId = [] then st
  else
    match outcome with
    | .ok data => { result := some data, error := "", loading := false }
    | .notOk =>
        { result := none, error := "❌ Transaction not found in ML database",
          loading := false }
    | .fetchError =>
        { result := none, error := "❌ Transaction not found in ML database",
          loading := false }

/-- The three depth buttons on the transaction page,
`src/unnamed/part_001` lines 278-309: each calls `setGraphDepth` with a
literal 1, 2 or 3. -/
inductive DepthButton where
  | hop1
  | hop2
  | hop3
deriving DecidableEq, Repr

/-- Effect of one button press on the `graphDepth` state cell. -/
def pressDepth : ℕ → DepthButton → ℕ
  | _, .hop1 => 1
  | _, .hop2 => 2
  | _, .hop3 => 3

/-- The value of `graphDepth` after a sequence of button presses,
starting from the initializer `useState(1)` (`src/unnamed/part_001`
line 14). -/
def graphDepthAfter (presses : List DepthButton) : ℕ :=
  presses.foldl pressDepth 1

example : graphDepthAfter [.hop3, .hop2] = 2 := by decide
example : graphDepthAfter [] = 1 := by decide

/-- A JavaScript value as it can appear in the untyped `is_flagged`
field of a graph-response node. -/
inductive JSVal where
  | bool (b : Bool)
  | num (q : ℚ)
  | str (s : String)
  | undef
deriving DecidableEq, Repr

/-- The strict flag test of `src/unnamed/part_001` line 72:
`n.is_flagged === true || n.is_flagged === 1`. -/
def jsIsFlagged : JSVal → Bool
  | .bool b => b
  | .num q => decide (q = 1)
  | _ => false

/-- JavaScript `risk || 0` on an optional number (line 77): null,
undefined and 0 are all falsy and give 0. -/
def jsOrZero : Option ℚ → ℚ
  | none => 0
  | some r => if r = 0 then 0 else r

/-- A node of the `/graph` response consumed by the transaction page. -/
structure NodeIn where
  id : String
  label : String
  type : String
  risk : Option ℚ
  is_flagged : JSVal
deriving DecidableEq, Repr

/-- An edge of the `/graph` response. -/
structure EdgeIn where
  source : String
  target : String
  direction : String
deriving DecidableEq, Repr

/-- `getNodeColor` from `src/unnamed/part_001` lines 49-56: center nodes
purple, flagged wallets black, the rest coloured by risk with the
80/60/40 cutoffs. -/
def getNodeColor (risk : ℚ) (type : String) (isFlagged : Bool) : String :=
  if type = "center" then "#cc00ff"
  else if isFlagged then "#000000"
  else if 80 ≤ risk then "#ff0000"
  else if 60 ≤ risk then "#ff8c00"
  else if 40 ≤ risk then "#ffd700"
  else "#00bfff"

/-- `getEdgeColor` from `src/unnamed/part_001` lines 59-63. -/
def getEdgeColor (direction : String) : String :=
  if direction = "outgoing" then "#ff6b6b"
  else if direction = "incoming" then "#51cf66"
  else "#888888"

/-- A node as stored in the graphology graph `G` by `G.addNode`
(`src/unnamed/part_001` lines 74-82). -/
structure GNode where
  id : String
  label : String
  size : ℚ
  color : String
  x : ℚ
  y : ℚ
  borderColor : Option String
  borderSize : ℚ
deriving DecidableEq, Repr

/-- An edge as stored by `G.addEdge` (lines 91-95). -/
structure GEdge where
  source : String
  target : String
  color : String
  size : ℚ
deriving DecidableEq, Repr

/-- The node attributes computed in the body of `nodes.forEach`
(lines 68-82).  The source sets
`angle = (index / nodes.length) * 2 * Math.PI` and uses
`Math.cos(angle)`, `Math.sin(angle)`; the transcendental functions are
abstracted as parameters `cosF sinF` applied to the turn fraction
`index / total`, standing for `t ↦ cos(2πt)` and `t ↦ sin(2πt)`. -/
def mkGNode (cosF sinF : ℚ → ℚ) (total index : ℕ) (n : NodeIn) : GNode :=
  let t : ℚ := (index : ℚ) / (total : ℚ)
  let radius : ℚ := if n.type = "center" then 0 else 100
  let isFlagged := jsIsFlagged n.is_flagged
  { id := n.id
    label := if isFlagged then "🚩 " ++ n.label else n.label
    size := if isFlagged then 20 else if n.type = "center" then 18 else 10
    color := getNodeColor (jsOrZero n.risk) n.type isFlagged
    x := cosF t * radius
    y := sinF t * radius
    borderColor := if isFlagged then some "#ff0000" else none
    borderSize := if isFlagged then 3 else 0 }

/-- The `nodes.forEach` loop of lines 66-84: walk the response nodes
with their index, adding a node only when `!G.hasNode(n.id)`. -/
def addNodesAux (cosF sinF : ℚ → ℚ) (total : ℕ) :
    List NodeIn → ℕ → List GNode → List GNode
  | [], _, acc => acc
  | n :: rest, index, acc =>
      addNodesAux cosF sinF total rest (index + 1)
        (if acc.any (fun m => m.id == n.id) then acc
         else acc ++ [mkGNode cosF sinF total index n])

/-- The node set of the rendered graph built from a `/graph` response. -/
def buildNodes (cosF sinF : ℚ → ℚ) (ns : List NodeIn) : List GNode :=
  addNodesAux cosF sinF ns.length ns 0 []

/-- The `edges.forEach` loop of lines 87-97: an edge is added only when
`!G.hasEdge(e.source, e.target)`. -/
def addEdgesAux : List EdgeIn → List GEdge → List GEdge
  | [], acc => acc
  | e :: rest, acc =>
      addEdgesAux rest
        (if acc.any (fun g => g.source == e.source && g.target == e.target)
         then acc
         else acc ++ [{ source := e.source, target := e.target,
                        color := getEdgeColor e.direction,
                        size := if e.direction = "indirect" then 1 else 2 }])

/-- The edge set of the rendered graph. -/
def buildEdges (es : List EdgeIn) : List GEdge :=
  addEdgesAux es []

/-- The hex colour that the 80/60/40 rule of `getNodeColor` pairs with
each risk-band label, used to compare node colouring against
`riskBand`. -/
def bandHexColor : String → String
  | "Critical" => "#ff0000"
  | "High" => "#ff8c00"
  | "Medium" => "#ffd700"
  | _ => "#00bfff"

/-- Modelled from the spec: the Fusion Scorer `fuse`
(spec §4.3) is backend code not present under `src/`.  Steps per the
spec: normalize the anomaly score by a fixed monotonic transform
`normAnom`, combine the three named channels by a fixed (offline-fit)
weighted rule, scale the combined value linearly from [0,1] to [0,100],
and clamp to [0,100] to guard against overshoot; the band comes from the
fixed thresholds. -/
def fuse (w_xgb w_gnn w_anom : ℚ) (normAnom : ℚ → ℚ)
    (fraud_prob gnn_fraud_prob anomaly_score : ℚ) : ℚ × String × ℚ :=
  let anomaly_score_norm := normAnom anomaly_score
  let combined := w_xgb * fraud_prob + w_gnn * gnn_fraud_prob
    + w_anom * anomaly_score_norm
  let risk_score := min 100 (max 0 (combined * 100))
  (risk_score, (riskBand risk_score).label, anomaly_score_norm)

end ChainGuard

open ChainGuard

/-- C1: the risk-band function maps a score to its band exactly as the
fixed thresholds state, each threshold inclusive on the lower bound:
`s ≥ 80` yields `Critical` (so exactly 80 is `Critical`, not `High`),
`60 ≤ s < 80` yields `High`, `40 ≤ s < 60` yields `Medium`, and `s < 40`
yields `Low`. -/
theorem riskBand_threshold_spec (s : ℚ) :
    (80 ≤ s → (riskBand s).label = "Critical")
    ∧ (60 ≤ s → s < 80 → (riskBand s).label = "High")
    ∧ (40 ≤ s → s < 60 → (riskBand s).label = "Medium")
    ∧ (s < 40 → (riskBand s).label = "Low") := by
  unfold riskBand
  refine ⟨?_, ?_, ?_, ?_⟩ <;> intros <;> split_ifs <;>
    first | rfl | linarith

/-- Witness for C1: the theorem applied at the boundary score 80. -/
theorem riskBand_threshold_spec_witness :
    (riskBand 80).label = "Critical" :=
  (riskBand_threshold_spec 80).1 (by norm_num)

/-- C6: for every numeric risk score, the band label produced is one of
exactly the four literals `Low`, `Medium`, `High`, `Critical`. -/
theorem riskBand_label_cases (s : ℚ) :
    (riskBand s).label = "Low" ∨ (riskBand s).label = "Medium"
    ∨ (riskBand s).label = "High" ∨ (riskBand s).label = "Critical" := by
  unfold riskBand
  split_ifs <;> simp

/-- C9: the identifier-truncation rule is one and the same function on
both pages: for every identifier `s`, if `s` has at most 16 characters
it is displayed unchanged, otherwise the display is the first 8
characters, `...`, and the last 8 characters — a 19-character string —
and the predict page's `getTruncatedId` and the transaction page's
`displayId` are extensionally equal. -/
theorem truncation_rule_shared (s : List Char) :
    getTruncatedId s = displayId s
    ∧ (s.length ≤ 16 → getTruncatedId s = s)
    ∧ (16 < s.length →
        getTruncatedId s
          = s.take 8 ++ ['.', '.', '.'] ++ s.drop (s.length - 8)
        ∧ (getTruncatedId s).length = 19) := by
  unfold getTruncatedId displayId
  refine ⟨?_, ?_, ?_⟩
  · split_ifs with h1 h2 h2 <;> first | rfl | omega
  · intro h; simp [h]
  · intro h
    rw [if_neg (by omega)]
    refine ⟨rfl, ?_⟩
    simp [List.length_take, List.length_drop]
    omega

/-- Witness for C9: the rule evaluated on a 17-character identifier. -/
theorem truncation_rule_shared_witness :
    16 < ("0123456789abcdef0".toList).length
    ∧ (getTruncatedId "0123456789abcdef0".toList).length = 19 :=
  ⟨by decide,
    ((truncation_rule_shared "0123456789abcdef0".toList).2.2 (by decide)).2⟩

/-- C10: the two pages select different anomaly values: when both
`anomaly_score` and `anomaly_score_norm` are present, the predict page
shows the normalized value (`anomaly_score_norm ?? anomaly_score`) while
the transaction page shows the raw value
(`anomaly_score ?? anomaly_score_norm`), the precedences reversed. -/
theorem anomaly_precedence_reversed (raw norm : ℚ) :
    predictAnomalyShown (some raw) (some norm) = some norm
    ∧ txPageAnomalyShown (some raw) (some norm) = some raw := by
  exact ⟨rfl, rfl⟩

/-- C5: a failed lookup never produces a default or zeroed record: for a
non-empty (trimmed) input, a not-ok response and a thrown fetch error
both leave `result` null and set the error message, and a result record
is only ever assigned from a successful response body. -/
theorem handleSubmit_no_default_record (txId : List Char) (st : SubmitState)
    (h : jsTrim txId ≠ []) :
    (handleSubmit txId .notOk st).result = none
    ∧ (handleSubmit txId .notOk st).error
        = "❌ Transaction not found in ML database"
    ∧ (handleSubmit txId .fetchError st).result = none
    ∧ (handleSubmit txId .fetchError st).error
        = "❌ Transaction not found in ML database"
    ∧ ∀ (o : FetchOutcome) (d : TxResult),
        (handleSubmit txId o st).result = some d → o = .ok d := by
  refine ⟨?_, ?_, ?_, ?_, ?_⟩
  · simp [handleSubmit, h]
  · simp [handleSubmit, h]
  · simp [handleSubmit, h]
  · simp [handleSubmit, h]
  · intro o d hres
    cases o with
    | ok data =>
        simp [handleSubmit, h] at hres
        simp [hres]
    | notOk => simp [handleSubmit, h] at hres
    | fetchError => simp [handleSubmit, h] at hres

/-- Witness for C5: the theorem applied to the input `"tx1"` and an
initial state. -/
theorem handleSubmit_no_default_record_witness :
    (handleSubmit "tx1".toList .notOk ⟨none, "", true⟩).result = none :=
  (handleSubmit_no_default_record "tx1".toList ⟨none, "", true⟩ (by decide)).1

/-- C4: `graphDepth` is initialized to 1 and only ever set to the
literals 1, 2 or 3 by the depth buttons, so after any sequence of
presses its value — the `depth` query parameter of the `/graph` fetch —
is one of 1, 2, 3. -/
theorem graphDepth_in_range (presses : List DepthButton) :
    graphDepthAfter presses = 1 ∨ graphDepthAfter presses = 2
    ∨ graphDepthAfter presses = 3 := by
  unfold graphDepthAfter
  have : ∀ (l : List DepthButton) (d : ℕ),
      d = 1 ∨ d = 2 ∨ d = 3 →
      l.foldl pressDepth d = 1 ∨ l.foldl pressDepth d = 2
      ∨ l.foldl pressDepth d = 3 := by
    intro l
    induction l with
    | nil => intro d hd; simpa using hd
    | cons b rest ih =>
        intro d _
        cases b <;> exact ih _ (by simp [pressDepth])
  exact this presses 1 (Or.inl rfl)

/-- C3: for every input triple, the fused risk score lies in [0,100]:
the combined value is linearly scaled to the score range and clamped. -/
theorem fuse_risk_score_in_range (w_xgb w_gnn w_anom : ℚ) (normAnom : ℚ → ℚ)
    (fraud_prob gnn_fraud_prob anomaly_score : ℚ) :
    0 ≤ (fuse w_xgb w_gnn w_anom normAnom
          fraud_prob gnn_fraud_prob anomaly_score).1
    ∧ (fuse w_xgb w_gnn w_anom normAnom
          fraud_prob gnn_fraud_prob anomaly_score).1 ≤ 100 := by
  unfold fuse
  constructor
  · exact le_min (by norm_num) (le_max_left 0 _)
  · exact min_le_left 100 _

/-- Helper: the node loop preserves distinctness of node ids, because an
id already present fails the `!G.hasNode(n.id)` guard. -/
theorem addNodesAux_nodup (cosF sinF : ℚ → ℚ) (total : ℕ) :
    ∀ (l : List NodeIn) (index : ℕ) (acc : List GNode),
      (acc.map GNode.id).Nodup →
      ((addNodesAux cosF sinF total l index acc).map GNode.id).Nodup := by
  intro l
  induction l with
  | nil => intro index acc h; simpa [addNodesAux] using h
  | cons n rest ih =>
      intro index acc h
      simp only [addNodesAux]
      split_ifs with hmem
      · exact ih _ _ h
      · apply ih
        rw [List.map_append]
        refine List.Nodup.append h (by simp) ?_
        intro a ha hb
        simp only [List.any_eq_true, beq_iff_eq] at hmem
        rcases List.mem_map.1 ha with ⟨m, hm, rfl⟩
        simp only [List.map_cons, List.map_nil, List.mem_singleton] at hb
        exact hmem ⟨m, hm, hb⟩

/-- Helper: the edge loop preserves distinctness of (source, target)
pairs, because a present pair fails the `!G.hasEdge(...)` guard. -/
theorem addEdgesAux_nodup :
    ∀ (l : List EdgeIn) (acc : List GEdge),
      (acc.map (fun g => (g.source, g.target))).Nodup →
      ((addEdgesAux l acc).map (fun g => (g.source, g.target))).Nodup := by
  intro l
  induction l with
  | nil => intro acc h; simpa [addEdgesAux] using h
  | cons e rest ih =>
      intro acc h
      simp only [addEdgesAux]
      by_cases hmem :
        (acc.any fun g => g.source == e.source && g.target == e.target) = true
      · rw [if_pos hmem]; exact ih _ h
      · rw [if_neg hmem]
        apply ih
        rw [List.map_append]
        refine List.Nodup.append h (by simp) ?_
        intro a ha hb
        simp only [List.any_eq_true, Bool.and_eq_true, beq_iff_eq] at hmem
        rcases List.mem_map.1 ha with ⟨g, hg, rfl⟩
        simp only [List.map_cons, List.map_nil, List.mem_singleton,
          Prod.mk.injEq] at hb
        exact hmem ⟨g, hg, hb.1, hb.2⟩

/-- C2: the graph built for rendering on the transaction page contains
no duplicate nodes and no duplicate (source, target) edges: for every
graph response, even one with repeated node ids or repeated
(source, target) pairs, each node id is added at most once (guarded by
`hasNode`) and each (source, target) edge at most once (guarded by
`hasEdge`). -/
theorem graph_no_duplicates (cosF sinF : ℚ → ℚ) (ns : List NodeIn)
    (es : List EdgeIn) :
    ((buildNodes cosF sinF ns).map GNode.id).Nodup
    ∧ ((buildEdges es).map (fun g => (g.source, g.target))).Nodup :=
  ⟨addNodesAux_nodup cosF sinF ns.length ns 0 [] (by simp),
   addEdgesAux_nodup es [] (by simp)⟩

/-- Helper: every node in the loop's output is either carried over from
the accumulator or was built by `mkGNode` from some input node. -/
theorem mem_addNodesAux (cosF sinF : ℚ → ℚ) (total : ℕ) :
    ∀ (l : List NodeIn) (index : ℕ) (acc : List GNode) (g : GNode),
      g ∈ addNodesAux cosF sinF total l index acc →
      g ∈ acc ∨ ∃ i n, n ∈ l ∧ g = mkGNode cosF sinF total i n := by
  intro l
  induction l with
  | nil => intro index acc g h; exact Or.inl (by simpa [addNodesAux] using h)
  | cons n rest ih =>
      intro index acc g h
      simp only [addNodesAux] at h
      split_ifs at h with hmem
      · rcases ih _ _ _ h with h1 | ⟨i, m, hm, rfl⟩
        · exact Or.inl h1
        · exact Or.inr ⟨i, m, List.mem_cons_of_mem _ hm, rfl⟩
      · rcases ih _ _ _ h with h1 | ⟨i, m, hm, rfl⟩
        · rcases List.mem_append.1 h1 with h2 | h2
          · exact Or.inl h2
          · exact Or.inr ⟨index, n, List.mem_cons_self _ _, by simpa using h2⟩
        · exact Or.inr ⟨i, m, List.mem_cons_of_mem _ hm, rfl⟩

/-- C7: in the initial positions assigned before force-directed layout,
a node of type `"center"` sits at the origin (its radius is 0) and every
non-center node sits on the circle of radius 100; consequently every
node of the built graph is at the origin or on that circle.  The
positions are only an initial hint — the source re-lays the graph out
with ForceAtlas2 afterwards. -/
theorem initial_positions (cosF sinF : ℚ → ℚ)
    (htrig : ∀ t, cosF t ^ 2 + sinF t ^ 2 = 1) (ns : List NodeIn) :
    (∀ (total index : ℕ) (n : NodeIn), n.type = "center" →
        (mkGNode cosF sinF total index n).x = 0
        ∧ (mkGNode cosF sinF total index n).y = 0)
    ∧ (∀ (total index : ℕ) (n : NodeIn), n.type ≠ "center" →
        (mkGNode cosF sinF total index n).x ^ 2
          + (mkGNode cosF sinF total index n).y ^ 2 = 100 ^ 2)
    ∧ ∀ g ∈ buildNodes cosF sinF ns,
        (g.x = 0 ∧ g.y = 0) ∨ g.x ^ 2 + g.y ^ 2 = 100 ^ 2 := by
  have hcen : ∀ (total index : ℕ) (n : NodeIn), n.type = "center" →
      (mkGNode cosF sinF total index n).x = 0
      ∧ (mkGNode cosF sinF total index n).y = 0 := by
    intro total index n h
    constructor <;> simp [mkGNode, h]
  have hnei : ∀ (total index : ℕ) (n : NodeIn), n.type ≠ "center" →
      (mkGNode cosF sinF total index n).x ^ 2
        + (mkGNode cosF sinF total index n).y ^ 2 = 100 ^ 2 := by
    intro total index n h
    simp only [mkGNode, if_neg h]
    linear_combination (10000 : ℚ) * htrig ((index : ℚ) / (total : ℚ))
  refine ⟨hcen, hnei, ?_⟩
  intro g hg
  rcases mem_addNodesAux cosF sinF ns.length ns 0 [] g hg with h | ⟨i, n, _, rfl⟩
  · simp at h
  · by_cases hc : n.type = "center"
    · exact Or.inl (hcen _ _ _ hc)
    · exact Or.inr (hnei _ _ _ hc)

/-- Witness for C7: the circle property for a concrete neighbor node,
with the trig pair instantiated by the constant functions 1 and 0. -/
theorem initial_positions_witness :
    (mkGNode (fun _ => 1) (fun _ => 0) 3 1
        ⟨"n1", "n1", "neighbor", some 50, .bool false⟩).x ^ 2
    + (mkGNode (fun _ => 1) (fun _ => 0) 3 1
        ⟨"n1", "n1", "neighbor", some 50, .bool false⟩).y ^ 2 = 100 ^ 2 :=
  (initial_positions (fun _ => 1) (fun _ => 0)
      (by intro t; norm_num) []).2.1 3 1
    ⟨"n1", "n1", "neighbor", some 50, .bool false⟩ (by decide)

/-- C8: node colouring applies a fixed precedence: a `"center"` node is
always purple regardless of flag or risk; a flagged non-center node
(`is_flagged === true` or `=== 1`) is always black regardless of risk;
a non-flagged non-center node is coloured by the same 80/60/40 cutoffs
as the risk bands; and a missing risk value (`risk || 0`) is treated as
0, i.e. Low. -/
theorem node_color_precedence (risk : ℚ) (ty : String) (fl : Bool) :
    getNodeColor risk "center" fl = "#cc00ff"
    ∧ (ty ≠ "center" → getNodeColor risk ty true = "#000000")
    ∧ (ty ≠ "center" →
        getNodeColor risk ty false = bandHexColor (riskBand risk).label)
    ∧ jsOrZero none = 0
    ∧ (riskBand (jsOrZero none)).label = "Low"
    ∧ jsIsFlagged (.bool true) = true ∧ jsIsFlagged (.num 1) = true
    ∧ jsIsFlagged (.bool false) = false ∧ jsIsFlagged .undef = false := by
  refine ⟨?_, ?_, ?_, by rfl, by decide, by decide, by decide, by decide,
    by decide⟩
  · simp [getNodeColor]
  · intro h; simp [getNodeColor, h]
  · intro h
    unfold getNodeColor riskBand
    rw [if_neg h]
    split_ifs <;> simp_all [bandHexColor]

/-- Witness for C8: a non-center, non-flagged node with risk 85 gets the
Critical colour. -/
theorem node_color_precedence_witness :
    getNodeColor 85 "neighbor" false = bandHexColor (riskBand 85).label :=
  (node_color_precedence 85 "neighbor" false).2.2.1 (by decide)
